import Mathlib

/-!
A verification development for a stateless enrichment gateway (a JS worker
fronting a grocery-inventory backend).  The definitions below are a shallow
embedding, translated function by function from the worker source:

* `normalize`, `scoreProduct`, `resolveProductFuzzy` — the fuzzy
  name-resolution algorithm;
* `cacheGetJson` — the cache-aside layer (cache state passed explicitly);
* `addToShoppingList`, `getShoppingList`, `createProduct`, `bulkStockAdd` —
  the enriched endpoint handlers, modelled as pure functions from a request
  body plus an environment (the outcomes of the backend reads the handler
  performs) to a response together with the list of backend write calls it
  issues.

Modelling conventions: JS strings are Lean `String`s restricted to the
ASCII behaviour of `toLowerCase` (every claim below is insensitive to the
non-ASCII case-mapping corners); JS numbers that the code only passes
through or compares are modelled as `Int`; a JS value that may be
`undefined`/`null` is an `Option`, and where the code distinguishes
`undefined` from `null` we use the three-valued `JVal`; fallible backend
reads are `Option` results in the environment (`none` = non-ok response /
thrown fetch).
-/

namespace Grocy

/-- The whitespace class of JS `\s` / `String.prototype.trim`, restricted to
the code points the model covers (space, tab, LF, VT, FF, CR, NBSP). -/
def isJsSpace (c : Char) : Bool :=
  c.toNat = 32 || c.toNat = 9 || c.toNat = 10 || c.toNat = 11 ||
  c.toNat = 12 || c.toNat = 13 || c.toNat = 160

/-- ASCII model of JS `toLowerCase` on one character. -/
def jsToLower (c : Char) : Char :=
  if 65 ≤ c.toNat ∧ c.toNat ≤ 90 then Char.ofNat (c.toNat + 32) else c

/-- `String.prototype.trim`: drop leading and trailing whitespace. -/
def trimChars (l : List Char) : List Char :=
  ((l.dropWhile isJsSpace).reverse.dropWhile isJsSpace).reverse

/-- The character class kept by `normalize`'s `replace(/[^a-z0-9\s]/g, "")`. -/
def isKeptChar (c : Char) : Bool :=
  (97 ≤ c.toNat && c.toNat ≤ 122) || (48 ≤ c.toNat && c.toNat ≤ 57) || isJsSpace c

/-- The `replace(/[^a-z0-9\s]/g, "")` step of `normalize`. -/
def stripChars (l : List Char) : List Char :=
  l.filter isKeptChar

/-- `normalize(str)`: `String(str || "").toLowerCase().trim().replace(/[^a-z0-9\s]/g, "")`. -/
def normalize (s : String) : String :=
  ⟨stripChars (trimChars (s.data.map jsToLower))⟩

/-- `normalize` applied to a possibly-`undefined`/`null` JS value
(`String(str || "")` turns those into `""`). -/
def normalizeOpt (s : Option String) : String :=
  normalize (s.getD "")

/-- `candidate.startsWith(query)` on the underlying character lists. -/
def charsStartWith : List Char → List Char → Bool
  | _, [] => true
  | [], _ :: _ => false
  | a :: as, b :: bs => a = b && charsStartWith as bs

/-- `candidate.includes(query)` on the underlying character lists. -/
def charsInclude (s q : List Char) : Bool :=
  charsStartWith s q ||
    match s with
    | [] => false
    | _ :: t => charsInclude t q

/-- `scoreProduct(name, query)` from the worker: exact → 100, prefix → 60,
substring → 30, otherwise 0 (both arguments already normalized). -/
def scoreProduct (name query : String) : Nat :=
  if name = query then 100
  else if charsStartWith name.data query.data then 60
  else if charsInclude name.data query.data then 30
  else 0

/-- A JS id value as it occurs in request bodies / query parameters: the
worker's strict-equality list selection distinguishes numbers from strings. -/
inductive JId where
  | num (n : Int)
  | str (s : String)
deriving DecidableEq

/-- JS `String(id)`. -/
def jidStr : JId → String
  | .num n => toString n
  | .str s => s

/-- JS truthiness of an id value (`0`, `""` are falsy). -/
def jidTruthy : JId → Bool
  | .num n => n ≠ 0
  | .str s => s ≠ ""

/-- A product object from the backend `products` collection.  `name` is
`Option` because the code guards it with a truthiness check (`p.name ? … : 0`)
and with `?? "Unknown"`. -/
structure Product where
  id : Int
  name : Option String
deriving DecidableEq

/-- One scored candidate, as built inside `resolveProductFuzzy`. -/
structure PMatch where
  id : Int
  name : Option String
  score : Nat
deriving DecidableEq

/-- The score the resolver assigns to one product:
`p.name ? scoreProduct(normalize(p.name), query) : 0`. -/
def candScore (query : String) (p : Product) : Nat :=
  match p.name with
  | some n => if n = "" then 0 else scoreProduct (normalize n) query
  | none => 0

/-- The candidate list kept by `resolveProductFuzzy`: score every product,
drop zero scores, stable-sort descending by score (JS `sort` is stable;
`List.insertionSort` with `b.score ≤ a.score` inserts each element before the
first kept element with a score ≤ its own, which is exactly stable descending
order), keep the first five. -/
def keptMatches (products : List Product) (productName : String) : List PMatch :=
  let query := normalize productName
  ((((products.map fun p => PMatch.mk p.id p.name (candScore query p))).filter
      fun m => 0 < m.score).insertionSort fun a b => b.score ≤ a.score).take 5

/-- The three-armed outcome of `resolveProductFuzzy`, mirroring the three
return sites (`{error:{error:"product_not_found",…}}`,
`{error:{error:"multiple_products",…}}`, `{product}`). -/
inductive ResolveResult where
  | errNotFound (product : String)
  | errMultiple (products : List (Int × Option String))
  | resolved (m : PMatch)
deriving DecidableEq

/-- `resolveProductFuzzy(products, productName)` from the worker. -/
def resolveProductFuzzy (products : List Product) (productName : String) :
    ResolveResult :=
  match keptMatches products productName with
  | [] => .errNotFound productName
  | top :: rest =>
    if rest.length + 1 > 1 ∧ top.score < 100 then
      .errMultiple ((top :: rest).map fun m => (m.id, m.name))
    else
      .resolved top

/-! ### Cache-aside layer (`cacheGetJson`) -/

/-- One stored cache entry: logical key, payload text, absolute expiry. -/
structure CacheEntry where
  key : String
  payload : String
  expiresAt : Nat
deriving DecidableEq

/-- The process-wide cache, modelled as a list of entries (later `put`s
shadow earlier ones because `cachePut` removes the old entry). -/
abbrev Cache := List CacheEntry

/-- `cache.match(key)` at time `now`: an entry is served only while
`now < expiresAt` (the `Cache-Control: max-age` the code attaches). -/
def cacheMatch (cache : Cache) (key : String) (now : Nat) : Option String :=
  (cache.find? fun e => e.key = key && decide (now < e.expiresAt)).map
    (fun e => e.payload)

/-- `cache.put(key, resp)` where the response was stamped with
`max-age = ttl` at time `now`. -/
def cachePut (cache : Cache) (key : String) (payload : String) (ttl now : Nat) :
    Cache :=
  ⟨key, payload, now + ttl⟩ :: cache.filter fun e => e.key ≠ key

/-- The outcome of the fetcher passed to `cacheGetJson` (`ok` mirrors
`resp.ok`; `body` is the response text, stored and returned verbatim). -/
structure FetchResp where
  ok : Bool
  body : String
deriving DecidableEq

/-- Result of one `cacheGetJson` call: the returned payload (`none` mirrors
the `return null` on a failed fetch), the cache state afterwards, and
whether the fetcher was invoked. -/
structure CacheGetResult where
  result : Option String
  cache : Cache
  fetcherInvoked : Bool
deriving DecidableEq

/-- `cacheGetJson(cache, cacheKeyUrl, fetcher, ttlSeconds)` from the worker:
on hit return the stored payload; on miss invoke the fetcher; a non-ok fetch
returns `null` and stores nothing; an ok fetch is stored under the key with
`max-age = ttl` and its body returned. -/
def cacheGetJson (cache : Cache) (key : String) (fetcher : FetchResp)
    (ttl now : Nat) : CacheGetResult :=
  match cacheMatch cache key now with
  | some payload => ⟨some payload, cache, false⟩
  | none =>
    if fetcher.ok then
      ⟨some fetcher.body, cachePut cache key fetcher.body ttl now, true⟩
    else
      ⟨none, cache, true⟩

/-! ### Shopping-list view data (the enriched GET endpoint) -/

/-- A three-valued JS field: `undefined` (absent — dropped by
`JSON.stringify`), `null`, or a value.  The enrichment code meaningfully
distinguishes `undefined` (map entry missing) from `null` (`?? null`). -/
inductive JVal (α : Type) where
  | undef
  | null
  | val (a : α)
deriving DecidableEq

/-- `x ?? null` for an optional backend field. -/
def toJN {α : Type} : Option α → JVal α
  | none => .null
  | some a => .val a

/-- A shopping list object (`shopping_lists` collection).  Its `id` is kept
as a `JId` because the two endpoints compare it with different equalities. -/
structure SList where
  id : JId
  name : Option String
deriving DecidableEq

/-- A store (`shopping_locations` collection). -/
structure Store where
  id : Int
  name : Option String
deriving DecidableEq

/-- One row of the backend `shopping_list` items collection (the fields the
handler reads). -/
structure SLItem where
  product_id : Option JId
  amount : Option Int
  note : Option String
  qu_id : Option Int
deriving DecidableEq

/-- The per-product stock-detail record (`/api/stock/products/{id}`): the
fields the handlers read.  `product_…` fields model `details.product?.…`. -/
structure StockDetails where
  product_qu_id_stock : Option Int
  qu_id_stock : Option Int
  quantity_unit_stock_name : Option String
  last_price : Option Int
  last_shopping_location_id : Option Int
  product_qu_id_price : Option Int
  qu_id_price : Option Int
  quantity_unit_price_name : Option String
  qu_conversion_factor_price_to_stock : Option Int
  qu_conversion_factor_purchase_to_stock : Option Int
deriving DecidableEq

/-- The entry stored in `lastPurchaseMap` for a product whose detail fetch
succeeded (every field already passed through `?? null`). -/
structure LastPurchase where
  last_price : JVal Int
  store_id : JVal Int
  price_qu_id : JVal Int
  price_qu_name : JVal String
  price_to_stock_factor : JVal Int
  purchase_to_stock_factor : JVal Int
deriving DecidableEq

/-- Building one `lastPurchaseMap` entry from a fetched detail record. -/
def lastPurchaseEntry (d : StockDetails) : LastPurchase where
  last_price := toJN d.last_price
  store_id := toJN d.last_shopping_location_id
  price_qu_id := toJN (d.product_qu_id_price.orElse fun _ => d.qu_id_price)
  price_qu_name := toJN d.quantity_unit_price_name
  price_to_stock_factor := toJN d.qu_conversion_factor_price_to_stock
  purchase_to_stock_factor := toJN d.qu_conversion_factor_purchase_to_stock

/-- `last = lastPurchaseMap[pid] ?? {}` followed by a field access: a missing
entry yields `undefined` for every field. -/
def lpField {α : Type} (lp : Option LastPurchase) (f : LastPurchase → JVal α) :
    JVal α :=
  match lp with
  | none => .undef
  | some e => f e

/-- The `pricing` sub-object of one enriched row. -/
structure Pricing where
  last_price_per_price_unit : JVal Int
  price_unit : JVal String
  price_qu_id : JVal Int
  amount : Option Int
  shopping_list_qu_id : Option Int
  purchase_to_stock_factor : JVal Int
  price_to_stock_factor : JVal Int
deriving DecidableEq

/-- One row of the enriched shopping-list response. -/
structure EnrichedRow where
  product_id : Option JId
  product_name : String
  amount : Option Int
  note : Option String
  last_store : Option String
  pricing : Pricing
deriving DecidableEq

/-! ### Bulk stock-add data -/

/-- One line of a bulk stock-add request body. -/
structure BulkItem where
  line : Option Int
  product : Option String
  amount : Option Int
  best_before_date : Option String
  price : Option Int
deriving DecidableEq

/-- The `interpreted_as` sub-object of a successful bulk line. -/
structure Interp where
  amount : Int
  unit : String
  price : Option Int
deriving DecidableEq

/-- The `status`/detail part of one per-line result, mirroring the five
`results.push` sites of the bulk loop. -/
inductive LineStatus where
  | errInvalidLine
  | errNotFound (product : String)
  | errMultiple (products : List (Int × Option String))
  | errDetailsUnavailable
  | errAddFailed
  | added (productId : Int) (productName : Option String) (interp : Interp)
deriving DecidableEq

/-- `r.status === "added"`. -/
def LineStatus.isAdded : LineStatus → Bool
  | .added _ _ _ => true
  | _ => false

/-- `r.status === "error"` (every non-`added` push sets `status: "error"`). -/
def LineStatus.isError : LineStatus → Bool
  | .added _ _ _ => false
  | _ => true

/-- One element of the bulk response's `results` array. -/
structure LineResult where
  line : Option Int
  res : LineStatus
deriving DecidableEq

/-- The `items` field of the bulk request body as JSON delivered it:
absent, present but not an array, or an array. -/
inductive ItemsField where
  | missing
  | notArray
  | arr (items : List BulkItem)
deriving DecidableEq

/-! ### Responses and backend writes -/

/-- The body of a worker response: one arm per JSON body shape the enriched
handlers produce, plus `text` for the plain-text responses. -/
inductive RespBody where
  | text (s : String)
  | invalidJson
  | invalidRequest
  | invalidShoppingListId
  | noShoppingListFound
  | multipleLists (lists : List (JId × Option String))
  | productNotFound (product : String)
  | multipleProducts (products : List (Int × Option String))
  | productExists (product : String)
  | invalidLocation (location : String)
  | invalidQuantityUnit (unit : String)
  | invalidProductGroup (group : String)
  | addedToList (listId : JId) (listName : Option String) (productId : Int)
      (productName : Option String) (amount : Int) (note : Option String)
  | listView (listId : JId) (listName : Option String)
      (items : List EnrichedRow)
  | emptyListView
  | created (productId : Int) (name : String) (location : String)
      (quStock quPurchase quConsume quPrice : String)
      (imageAttached : Bool) (imageError : Option String)
  | stockAdded (productId : Int) (productName : Option String) (interp : Interp)
  | bulkCompleted (total added errors : Nat) (results : List LineResult)
deriving DecidableEq

/-- An HTTP response of the worker. -/
structure Resp where
  status : Nat
  body : RespBody
deriving DecidableEq

/-- `json(obj, status)` from the worker. -/
def jsonResp (body : RespBody) (status : Nat) : Resp := ⟨status, body⟩

/-- A plain-text `new Response(s, {status})`. -/
def textResp (s : String) (status : Nat) : Resp := ⟨status, .text s⟩

/-- The machine-readable `error` code of a structured JSON error body, if
the body is one. -/
def errorCode : RespBody → Option String
  | .invalidJson => some "invalid_json"
  | .invalidRequest => some "invalid_request"
  | .invalidShoppingListId => some "invalid_shopping_list_id"
  | .noShoppingListFound => some "no_shopping_list_found"
  | .multipleLists _ => some "multiple_lists"
  | .productNotFound _ => some "product_not_found"
  | .multipleProducts _ => some "multiple_products"
  | .productExists _ => some "product_exists"
  | .invalidLocation _ => some "invalid_location"
  | .invalidQuantityUnit _ => some "invalid_quantity_unit"
  | .invalidProductGroup _ => some "invalid_product_group"
  | _ => none

/-- Whether a response body is a plain-text (non-JSON) body. -/
def isTextBody : RespBody → Bool
  | .text _ => true
  | _ => false

/-- The error-shape discipline an enriched handler's response actually
obeys: a 400 response is a structured JSON error with a machine-readable
code, and a 502 (backend-unavailability) response is a plain-text body. -/
def RespOk (r : Resp) : Prop :=
  (r.status = 400 → (errorCode r.body).isSome = true) ∧
  (r.status = 502 → isTextBody r.body = true)

/-- A mutating call issued to the backend collaborator (`POST`s; the
read-only `GET`s live in the environment instead). -/
inductive WriteCall where
  | addShoppingListItem (productId : Int) (amount : Int) (note : Option String)
      (listId : JId)
  | createProduct (name : String) (description : Option String)
      (locationId : Int) (quStock quPurchase quConsume quPrice : Int)
      (productGroupId : Option Int)
  | uploadProductImage (productId : Int)
  | addStock (productId : Int) (amount : Int) (bbd : Option String)
      (quId : Option Int)
  | addProductPrice (productId : Int) (price : Int) (storeId : Option Int)
deriving DecidableEq

/-! ### Shopping-list selection and the two list endpoints -/

/-- Outcome of the shared list-selection logic. -/
inductive SelOutcome where
  | selected (l : SList)
  | invalidId
  | multiple (lists : List SList)
  | noneFound
deriving DecidableEq

/-- The shared fallback when no id was supplied: a single list is selected,
several are ambiguous, none is a miss. -/
def selectListFallback (lists : List SList) : SelOutcome :=
  match lists with
  | [l] => .selected l
  | l1 :: l2 :: rest => .multiple (l1 :: l2 :: rest)
  | [] => .noneFound

/-- List selection on the POST add endpoint: a supplied (truthy) id is
matched with strict equality `l.id === shopping_list_id`. -/
def selectListAdd (lists : List SList) (sid : Option JId) : SelOutcome :=
  match sid with
  | some j =>
    if jidTruthy j then
      match lists.find? fun l => l.id = j with
      | some l => .selected l
      | none => .invalidId
    else selectListFallback lists
  | none => selectListFallback lists

/-- List selection on the GET endpoint: a supplied (truthy) `list_id` query
parameter is matched after converting both sides to strings,
`String(l.id) === String(requestedListId)`. -/
def selectListGet (lists : List SList) (rid : Option String) : SelOutcome :=
  match rid with
  | some s =>
    if s ≠ "" then
      match lists.find? fun l => jidStr l.id = s with
      | some l => .selected l
      | none => .invalidId
    else selectListFallback lists
  | none => selectListFallback lists

/-- Environment of the add-to-shopping-list handler: outcomes of its backend
reads and of its single write. -/
structure AddEnv where
  lists : Option (List SList)
  products : Option (List Product)
  addOk : Bool

/-- Body of the add-to-shopping-list request. -/
structure AddBody where
  product : Option String
  amount : Option Int
  note : Option String
  shopping_list_id : Option JId
deriving DecidableEq

/-- The `POST /api/enriched/shopping_list/add` handler.  Returns the
response together with the backend write calls issued. -/
def addToShoppingList (env : AddEnv) (body : Option AddBody) :
    Resp × List WriteCall :=
  match body with
  | none => (jsonResp .invalidJson 400, [])
  | some b =>
    match b.product, b.amount with
    | none, _ => (jsonResp .invalidRequest 400, [])
    | some _, none => (jsonResp .invalidRequest 400, [])
    | some p, some amount =>
      if p = "" then (jsonResp .invalidRequest 400, [])
      else
        match env.lists with
        | none => (textResp "Failed to fetch shopping lists" 502, [])
        | some lists =>
          match selectListAdd lists b.shopping_list_id with
          | .invalidId => (jsonResp .invalidShoppingListId 400, [])
          | .multiple ls =>
            (jsonResp (.multipleLists (ls.map fun l => (l.id, l.name))) 400, [])
          | .noneFound => (jsonResp .noShoppingListFound 400, [])
          | .selected sl =>
            match env.products with
            | none => (textResp "Failed to fetch products" 502, [])
            | some products =>
              match resolveProductFuzzy products p with
              | .errNotFound pn => (jsonResp (.productNotFound pn) 400, [])
              | .errMultiple ps => (jsonResp (.multipleProducts ps) 400, [])
              | .resolved m =>
                let w := WriteCall.addShoppingListItem m.id amount b.note sl.id
                if env.addOk then
                  (jsonResp
                    (.addedToList sl.id sl.name m.id m.name amount b.note) 200,
                    [w])
                else (textResp "Failed to add item" 502, [w])

/-- `productMap[pid] ?? "Unknown"` — `Object.fromEntries` keys are the
stringified product ids and later entries shadow earlier ones, hence the
string comparison and the reversed search. -/
def productNameFor (products : List Product) (pid : Option JId) : String :=
  match pid with
  | none => "Unknown"
  | some j =>
    match products.reverse.find? fun pr => toString pr.id = jidStr j with
    | some pr => pr.name.getD "Unknown"
    | none => "Unknown"

/-- `last.store_id ? (storeMap[last.store_id] ?? null) : null`. -/
def lastStoreFor (stores : List Store) (sid : JVal Int) : Option String :=
  match sid with
  | .val n =>
    if n ≠ 0 then
      match stores.reverse.find? fun st => st.id = n with
      | some st => st.name
      | none => none
    else none
  | _ => none

/-- `[...new Set(xs)]`: first-occurrence deduplication. -/
def dedupFirst (l : List Int) : List Int :=
  l.foldl (fun acc n => if n ∈ acc then acc else acc ++ [n]) []

/-- The distinct numeric product ids of the retained items. -/
def numericIds (items : List SLItem) : List Int :=
  dedupFirst (items.filterMap fun i =>
    match i.product_id with
    | some (.num n) => some n
    | _ => none)

/-- `lastPurchaseMap[i.product_id]`: the map's keys are the fetched numeric
product ids (stringified by JS property lookup), and an entry exists exactly
when that id's detail fetch succeeded. -/
def lpLookup (details : Int → Option StockDetails) (ids : List Int)
    (pid : Option JId) : Option LastPurchase :=
  match pid with
  | none => none
  | some j =>
    match ids.find? fun n => toString n = jidStr j with
    | some n => (details n).map lastPurchaseEntry
    | none => none

/-- Assembling one enriched row from one retained item. -/
def mkEnrichedRow (details : Int → Option StockDetails)
    (products : List Product) (stores : List Store) (ids : List Int)
    (i : SLItem) : EnrichedRow :=
  let lp := lpLookup details ids i.product_id
  { product_id := i.product_id
    product_name := productNameFor products i.product_id
    amount := i.amount
    note := i.note
    last_store := lastStoreFor stores (lpField lp fun e => e.store_id)
    pricing :=
    { last_price_per_price_unit := lpField lp fun e => e.last_price
      price_unit := lpField lp fun e => e.price_qu_name
      price_qu_id := lpField lp fun e => e.price_qu_id
      amount := i.amount
      shopping_list_qu_id := i.qu_id
      purchase_to_stock_factor := lpField lp fun e => e.purchase_to_stock_factor
      price_to_stock_factor := lpField lp fun e => e.price_to_stock_factor } }

/-- Environment of the enriched shopping-list GET handler.  `items` is the
outcome of the per-list items fetch; `details pid` is the outcome of the
(cached, concurrent) per-product detail fetch. -/
structure ListViewEnv where
  lists : Option (List SList)
  items : Option (List SLItem)
  products : Option (List Product)
  stores : Option (List Store)
  details : Int → Option StockDetails

/-- The `GET /api/enriched/shopping_list` handler (it issues no writes). -/
def getShoppingList (env : ListViewEnv) (list_id : Option String) : Resp :=
  match env.lists with
  | none => textResp "Failed to fetch shopping lists" 502
  | some lists =>
    match selectListGet lists list_id with
    | .invalidId => jsonResp .invalidShoppingListId 400
    | .multiple ls =>
      jsonResp (.multipleLists (ls.map fun l => (l.id, l.name))) 400
    | .noneFound => jsonResp .emptyListView 200
    | .selected sl =>
      match env.items with
      | none => textResp "Failed to fetch shopping list items" 502
      | some items0 =>
        let items := items0.take 50
        let ids := numericIds items
        match env.products with
        | none => textResp "Failed to fetch products" 502
        | some products =>
          match env.stores with
          | none => textResp "Failed to fetch stores" 502
          | some stores =>
            jsonResp
              (.listView sl.id sl.name
                (items.map (mkEnrichedRow env.details products stores ids)))
              200

/-! ### Product creation (mutation orchestrator) -/

/-- A named backend entity (location, quantity unit, product group). -/
structure Entity where
  id : Int
  name : String
deriving DecidableEq

/-- `x || dflt` for an optional string field (JS `||`: `""` is falsy). -/
def effName (given : Option String) (dflt : String) : String :=
  match given with
  | some s => if s = "" then dflt else s
  | none => dflt

/-- `resolveUnit(unitName)`: exact match after normalization. -/
def resolveUnit (units : List Entity) (unitName : String) : Option Entity :=
  units.find? fun u => normalize u.name = normalize unitName

/-- Body of the product-creation request (`quantity_units = {}` when absent
is covered by the four `Option` fields). -/
structure CreateBody where
  name : Option String
  description : Option String
  default_location : Option String
  qu_stock : Option String
  qu_purchase : Option String
  qu_consume : Option String
  qu_price : Option String
  product_group : Option String
  image_url : Option String
deriving DecidableEq

/-- Outcome of the optional image fetch: the fetch threw, or returned a
response with status/headers. -/
inductive ImgFetch where
  | threw (msg : String)
  | got (ok : Bool) (status : Nat) (contentLength : Nat) (contentType : String)
deriving DecidableEq

/-- Environment of the creation handler: outcomes of its backend reads, the
creation write (`some id` = created object id, `none` = non-ok), and the
best-effort image step. -/
structure CreateEnv where
  products : Option (List Product)
  locations : Option (List Entity)
  units : Option (List Entity)
  groups : Option (List Entity)
  defaultLocationName : String
  defaultStockUnit : String
  defaultPurchaseUnit : String
  defaultConsumeUnit : String
  defaultPriceUnit : String
  createdId : Option Int
  imageFetch : ImgFetch
  uploadOk : Bool
  uploadStatus : Nat
  uploadText : String

/-- The best-effort image step: (attached, recorded error, writes issued). -/
def imageStep (env : CreateEnv) (productId : Int) :
    Bool × Option String × List WriteCall :=
  match env.imageFetch with
  | .threw msg => (false, some msg, [])
  | .got ok status contentLength contentType =>
    if !ok then
      (false, some ("image fetch failed (" ++ toString status ++ ")"), [])
    else if contentLength > 5000000 then (false, some "image too large", [])
    else if !(contentType.startsWith "image/") then
      (false, some ("invalid content-type (" ++ contentType ++ ")"), [])
    else if env.uploadOk then (true, none, [.uploadProductImage productId])
    else
      (false,
        some ("upload failed (" ++ toString env.uploadStatus ++ "): " ++
          env.uploadText),
        [.uploadProductImage productId])

/-- The tail of the creation handler once the product-group id (possibly
`null`) is known: the creation write, the best-effort image step, the
success response. -/
def createFinal (env : CreateEnv) (b : CreateBody) (name : String)
    (location : Entity) (uStock uPurchase uConsume uPrice : Entity)
    (product_group_id : Option Int) : Resp × List WriteCall :=
  let w := WriteCall.createProduct name b.description location.id uStock.id
    uPurchase.id uConsume.id uPrice.id product_group_id
  match env.createdId with
  | none => (textResp "Failed to create product" 502, [w])
  | some productId =>
    let img :=
      match b.image_url with
      | some u =>
        if u = "" then (false, (none : Option String), ([] : List WriteCall))
        else imageStep env productId
      | none => (false, none, [])
    (jsonResp
      (.created productId name location.name uStock.name uPurchase.name
        uConsume.name uPrice.name img.1 img.2.1) 200,
      w :: img.2.2)

/-- The steps of the creation handler after all four quantity-unit roles
resolved: optional product-group resolution (`product_group_id` stays `null`
when no truthy group name was supplied), then `createFinal`. -/
def createAfterUnits (env : CreateEnv) (b : CreateBody) (name : String)
    (location : Entity) (uStock uPurchase uConsume uPrice : Entity) :
    Resp × List WriteCall :=
  match b.product_group with
  | some g =>
    if g = "" then
      createFinal env b name location uStock uPurchase uConsume uPrice none
    else
      match env.groups with
      | none => (textResp "Failed to fetch product groups" 502, [])
      | some groups =>
        match groups.find? fun gr => normalize gr.name = normalize g with
        | none => (jsonResp (.invalidProductGroup g) 400, [])
        | some m =>
          createFinal env b name location uStock uPurchase uConsume uPrice
            (some m.id)
  | none =>
    createFinal env b name location uStock uPurchase uConsume uPrice none

/-- The `POST /api/enriched/products/create` handler: dedupe gate, location
gate, the four quantity-unit gates in `Object.entries` order (stock,
purchase, consume, price), optional group gate, then the creation write. -/
def createProduct (env : CreateEnv) (body : Option CreateBody) :
    Resp × List WriteCall :=
  match body with
  | none => (jsonResp .invalidJson 400, [])
  | some b =>
    match b.name with
    | none => (jsonResp .invalidRequest 400, [])
    | some name =>
      if name = "" then (jsonResp .invalidRequest 400, [])
      else
        match env.products with
        | none => (textResp "Failed to fetch products" 502, [])
        | some products =>
          if products.any fun p => normalizeOpt p.name = normalize name then
            (jsonResp (.productExists name) 400, [])
          else
            let locationName := effName b.default_location env.defaultLocationName
            match env.locations with
            | none => (textResp "Failed to fetch locations" 502, [])
            | some locations =>
              match locations.find? fun l =>
                  normalize l.name = normalize locationName with
              | none => (jsonResp (.invalidLocation locationName) 400, [])
              | some location =>
                match env.units with
                | none => (textResp "Failed to fetch quantity units" 502, [])
                | some units =>
                  match resolveUnit units (effName b.qu_stock env.defaultStockUnit) with
                  | none => (jsonResp (.invalidQuantityUnit "stock") 400, [])
                  | some uStock =>
                    match resolveUnit units (effName b.qu_purchase env.defaultPurchaseUnit) with
                    | none => (jsonResp (.invalidQuantityUnit "purchase") 400, [])
                    | some uPurchase =>
                      match resolveUnit units (effName b.qu_consume env.defaultConsumeUnit) with
                      | none => (jsonResp (.invalidQuantityUnit "consume") 400, [])
                      | some uConsume =>
                        match resolveUnit units (effName b.qu_price env.defaultPriceUnit) with
                        | none => (jsonResp (.invalidQuantityUnit "price") 400, [])
                        | some uPrice =>
                          createAfterUnits env b name location uStock
                            uPurchase uConsume uPrice

/-! ### Stock add (single and bulk) -/

/-- Environment shared by the stock-add handlers: the cached product set,
the per-product detail fetch, and the outcome of each attempted stock-add
write (a function of the full write payload). -/
structure BulkEnv where
  products : Option (List Product)
  details : Int → Option StockDetails
  addOk : Int → Int → Option String → Option Int → Bool

/-- `details.product?.qu_id_stock ?? details.qu_id_stock`. -/
def stockQuId (d : StockDetails) : Option Int :=
  d.product_qu_id_stock.orElse fun _ => d.qu_id_stock

/-- The `POST /api/enriched/stock/add` (single) handler. -/
def singleStockAdd (env : BulkEnv) (body : Option BulkItem) :
    Resp × List WriteCall :=
  match body with
  | none => (jsonResp .invalidJson 400, [])
  | some b =>
    match b.product, b.amount with
    | none, _ => (jsonResp .invalidRequest 400, [])
    | some _, none => (jsonResp .invalidRequest 400, [])
    | some p, some amount =>
      if p = "" then (jsonResp .invalidRequest 400, [])
      else
        match env.products with
        | none => (textResp "Failed to fetch products" 502, [])
        | some products =>
          match resolveProductFuzzy products p with
          | .errNotFound pn => (jsonResp (.productNotFound pn) 400, [])
          | .errMultiple ps => (jsonResp (.multipleProducts ps) 400, [])
          | .resolved m =>
            match env.details m.id with
            | none => (textResp "Failed to fetch product details" 502, [])
            | some d =>
              let quId := stockQuId d
              let wAdd := WriteCall.addStock m.id amount b.best_before_date quId
              if env.addOk m.id amount b.best_before_date quId then
                let priceW : List WriteCall :=
                  match b.price with
                  | some pr =>
                    [.addProductPrice m.id pr d.last_shopping_location_id]
                  | none => []
                (jsonResp
                  (.stockAdded m.id m.name
                    ⟨amount, (d.quantity_unit_stock_name).getD "stock unit",
                      b.price⟩) 200,
                  wAdd :: priceW)
              else (textResp "Failed to add stock" 502, [wAdd])

/-- One iteration of the bulk loop: the per-line result and the writes the
line issued.  Translated from the loop body (shape check, fuzzy resolution,
detail fetch, stock-add write, best-effort price write). -/
def processLine (env : BulkEnv) (products : List Product) (item : BulkItem) :
    LineResult × List WriteCall :=
  match item.product, item.amount with
  | none, _ => (⟨item.line, .errInvalidLine⟩, [])
  | some _, none => (⟨item.line, .errInvalidLine⟩, [])
  | some p, some amount =>
    if p = "" then (⟨item.line, .errInvalidLine⟩, [])
    else
      match resolveProductFuzzy products p with
      | .errNotFound pn => (⟨item.line, .errNotFound pn⟩, [])
      | .errMultiple ps => (⟨item.line, .errMultiple ps⟩, [])
      | .resolved m =>
        match env.details m.id with
        | none => (⟨item.line, .errDetailsUnavailable⟩, [])
        | some d =>
          let quId := stockQuId d
          let wAdd := WriteCall.addStock m.id amount item.best_before_date quId
          if env.addOk m.id amount item.best_before_date quId then
            let priceW : List WriteCall :=
              match item.price with
              | some pr => [.addProductPrice m.id pr d.last_shopping_location_id]
              | none => []
            (⟨item.line,
              .added m.id m.name
                ⟨amount, (d.quantity_unit_stock_name).getD "stock unit",
                  item.price⟩⟩,
              wAdd :: priceW)
          else (⟨item.line, .errAddFailed⟩, [wAdd])

/-- The bulk `for`-loop: a left fold pushing one result per retained line
onto the accumulator. -/
def bulkLoop (env : BulkEnv) (products : List Product)
    (items : List BulkItem) : List LineResult × List WriteCall :=
  items.foldl
    (fun acc it =>
      let r := processLine env products it
      (acc.1 ++ [r.1], acc.2 ++ r.2))
    ([], [])

/-- The bulk request body. -/
structure BulkBody where
  items : ItemsField
deriving DecidableEq

/-- The `POST /api/enriched/stock/add/bulk` handler. -/
def bulkStockAdd (env : BulkEnv) (body : Option BulkBody) :
    Resp × List WriteCall :=
  match body with
  | none => (jsonResp .invalidJson 400, [])
  | some b =>
    match b.items with
    | .missing => (jsonResp .invalidRequest 400, [])
    | .notArray => (jsonResp .invalidRequest 400, [])
    | .arr items =>
      if items.length = 0 then (jsonResp .invalidRequest 400, [])
      else
        let safeItems := items.take 25
        match env.products with
        | none => (textResp "Failed to fetch products" 502, [])
        | some products =>
          let out := bulkLoop env products safeItems
          (jsonResp
            (.bulkCompleted safeItems.length
              (out.1.filter fun r => r.res.isAdded).length
              (out.1.filter fun r => r.res.isError).length
              out.1) 200,
            out.2)

/-! ## Lemmas -/

theorem jsToLower_of_kept {c : Char} (h : isKeptChar c = true) :
    jsToLower c = c := by
  unfold jsToLower
  rw [if_neg]
  intro hc
  simp only [isKeptChar, isJsSpace, Bool.or_eq_true, Bool.and_eq_true,
    decide_eq_true_eq] at h
  omega

theorem mem_stripChars {c : Char} {l : List Char} (h : c ∈ stripChars l) :
    isKeptChar c = true :=
  (List.mem_filter.mp h).2

theorem mem_trimChars {c : Char} {l : List Char} (h : c ∈ trimChars l) :
    c ∈ l := by
  unfold trimChars at h
  rw [List.mem_reverse] at h
  have h2 : c ∈ (l.dropWhile isJsSpace).reverse :=
    (List.dropWhile_sublist _).mem h
  rw [List.mem_reverse] at h2
  exact (List.dropWhile_sublist _).mem h2

theorem map_jsToLower_of_kept {l : List Char}
    (h : ∀ c ∈ l, isKeptChar c = true) : l.map jsToLower = l := by
  induction l with
  | nil => rfl
  | cons c t ih =>
    simp only [List.map_cons, jsToLower_of_kept (h c (List.mem_cons_self c t)),
      List.cons.injEq, true_and]
    exact ih fun x hx => h x (List.mem_cons_of_mem _ hx)

theorem stripChars_of_kept {l : List Char}
    (h : ∀ c ∈ l, isKeptChar c = true) : stripChars l = l :=
  List.filter_eq_self.mpr h

theorem normalize_data_kept {s : String} {c : Char}
    (h : c ∈ (normalize s).data) : isKeptChar c = true :=
  mem_stripChars h

theorem scoreProduct_le (name query : String) :
    scoreProduct name query ≤ 100 := by
  unfold scoreProduct
  split_ifs <;> omega

theorem candScore_le (query : String) (p : Product) :
    candScore query p ≤ 100 := by
  unfold candScore
  rcases p.name with _ | n
  · exact Nat.zero_le _
  · dsimp only
    split
    · exact Nat.zero_le _
    · exact scoreProduct_le _ _

theorem keptMatches_score_le {products : List Product} {q : String}
    {m : PMatch} (h : m ∈ keptMatches products q) : m.score ≤ 100 := by
  simp only [keptMatches] at h
  have h1 := (List.take_sublist 5 _).mem h
  rw [(List.perm_insertionSort _ _).mem_iff] at h1
  obtain ⟨p, _, rfl⟩ := List.mem_map.mp (List.mem_filter.mp h1).1
  exact candScore_le _ _

theorem bulkLoop_go (env : BulkEnv) (products : List Product)
    (items : List BulkItem) (acc : List LineResult × List WriteCall) :
    (items.foldl
      (fun acc it =>
        let r := processLine env products it
        (acc.1 ++ [r.1], acc.2 ++ r.2)) acc).1 =
      acc.1 ++ items.map fun it => (processLine env products it).1 := by
  induction items generalizing acc with
  | nil => simp
  | cons a t ih => simp [List.foldl_cons, ih]

/-- The per-line results of the bulk loop are exactly the per-item images of
`processLine`, in input order. -/
theorem bulkLoop_fst (env : BulkEnv) (products : List Product)
    (items : List BulkItem) :
    (bulkLoop env products items).1 =
      items.map fun it => (processLine env products it).1 := by
  simpa using bulkLoop_go env products items ([], [])

/-- Evaluation of the bulk handler on a non-empty array body. -/
theorem bulkStockAdd_unfold (env : BulkEnv) (ps : List Product)
    (items : List BulkItem) (hps : env.products = some ps)
    (hne : items.length ≠ 0) :
    bulkStockAdd env (some ⟨.arr items⟩) =
      (jsonResp
        (.bulkCompleted (items.take 25).length
          (((items.take 25).map fun it => (processLine env ps it).1).filter
            (fun r => r.res.isAdded)).length
          (((items.take 25).map fun it => (processLine env ps it).1).filter
            (fun r => r.res.isError)).length
          ((items.take 25).map fun it => (processLine env ps it).1)) 200,
        (bulkLoop env ps (items.take 25)).2) := by
  simp only [bulkStockAdd, hps, if_neg hne, bulkLoop_fst]

theorem toDigitsCore_ne_nil (fuel n : Nat) (ds : List Char)
    (h : ds ≠ [] ∨ fuel ≠ 0) : Nat.toDigitsCore 10 fuel n ds ≠ [] := by
  induction fuel generalizing n ds with
  | zero =>
    rcases h with h | h
    · simpa [Nat.toDigitsCore] using h
    · exact absurd rfl h
  | succ f ih =>
    rw [Nat.toDigitsCore]
    split
    · exact List.cons_ne_nil _ _
    · exact ih _ _ (Or.inl (List.cons_ne_nil _ _))

theorem nat_toString_ne_empty (n : Nat) : toString n ≠ "" := by
  show Nat.repr n ≠ ""
  unfold Nat.repr
  intro h
  have hd := congrArg String.data h
  have hnil : Nat.toDigits 10 n = [] := by
    simpa [List.asString] using hd
  exact toDigitsCore_ne_nil (n + 1) n [] (Or.inr (Nat.succ_ne_zero n))
    (by simpa [Nat.toDigits] using hnil)

theorem int_toString_ne_empty (n : Int) : toString n ≠ "" := by
  cases n with
  | ofNat m => exact nat_toString_ne_empty m
  | negSucc m =>
    intro h
    have hd := congrArg String.data h
    rw [show toString (Int.negSucc m) = "-" ++ toString (m + 1) from rfl] at hd
    simp [String.data_append] at hd

/-! ## Claims -/

/-- **C8 counterexample.**  The claim "`normalize` is idempotent for every
string" fails: stripping a non-kept character after trimming can expose
trailing whitespace, so `normalize "a ."` is `"a "` while a second
application trims it to `"a"`. -/
theorem normalize_not_idempotent :
    normalize (normalize "a .") ≠ normalize "a ." := by decide

/-- **C8 (amended).**  A second application of `normalize` only trims the
result of the first — `normalize (normalize s)` equals `normalize s` with
leading/trailing whitespace removed — so `normalize` is idempotent at `s`
exactly when `normalize s` has no leading or trailing whitespace. -/
theorem normalize_normalize (s : String) :
    normalize (normalize s) = ⟨trimChars (normalize s).data⟩ ∧
    (normalize (normalize s) = normalize s ↔
      trimChars (normalize s).data = (normalize s).data) := by
  have hkept : ∀ c ∈ (normalize s).data, isKeptChar c = true :=
    fun c hc => normalize_data_kept hc
  have hmain : normalize (normalize s) = ⟨trimChars (normalize s).data⟩ := by
    show String.mk (stripChars (trimChars ((normalize s).data.map jsToLower)))
      = String.mk (trimChars (normalize s).data)
    rw [map_jsToLower_of_kept hkept,
      stripChars_of_kept fun c hc => hkept c (mem_trimChars hc)]
  refine ⟨hmain, ?_⟩
  rw [hmain]
  constructor
  · intro h
    simpa using congrArg String.data h
  · intro h
    apply String.ext
    simpa using h

/-- **C5.**  The cache-aside `cacheGetJson`: on a hit it returns the stored
payload without invoking the fetcher and leaves the cache unchanged; on a
miss it invokes the fetcher — a failed fetch stores nothing (no negative
caching) and propagates the failure (`null` result), a successful fetch
stores the payload verbatim under the key with expiry `now + ttl` and
returns it. -/
theorem cacheGetJson_spec (cache : Cache) (key : String) (fetcher : FetchResp)
    (ttl now : Nat) :
    (∀ p, cacheMatch cache key now = some p →
      cacheGetJson cache key fetcher ttl now = ⟨some p, cache, false⟩) ∧
    (cacheMatch cache key now = none → fetcher.ok = false →
      cacheGetJson cache key fetcher ttl now = ⟨none, cache, true⟩) ∧
    (cacheMatch cache key now = none → fetcher.ok = true →
      cacheGetJson cache key fetcher ttl now =
        ⟨some fetcher.body, cachePut cache key fetcher.body ttl now, true⟩) := by
  refine ⟨fun p hp => ?_, fun hm hf => ?_, fun hm hf => ?_⟩
  · simp [cacheGetJson, hp]
  · simp [cacheGetJson, hm, hf]
  · simp [cacheGetJson, hm, hf]

/-- **C5 witness**: a concrete miss-then-success run stores the payload with
expiry `now + ttl` and returns it. -/
theorem cacheGetJson_spec_witness :
    cacheGetJson [] "k" ⟨true, "pay"⟩ 5 2 =
      ⟨some "pay", [⟨"k", "pay", 7⟩], true⟩ := by
  have h := (cacheGetJson_spec [] "k" ⟨true, "pay"⟩ 5 2).2.2 rfl rfl
  simpa [cachePut] using h

/-- **C1.**  The fuzzy resolver's decision table over the kept candidate
list (positive-score candidates, stable-sorted descending, top five):
no candidate → `product_not_found`; top score 100 → resolved with the top
candidate even if others remain; two or more candidates with top score
below 100 → `multiple_products` listing all kept candidates; a single
candidate with score below 100 → resolved. -/
theorem resolveProductFuzzy_cases (products : List Product) (q : String) :
    (keptMatches products q = [] ∧
      resolveProductFuzzy products q = .errNotFound q) ∨
    (∃ top rest, keptMatches products q = top :: rest ∧ top.score = 100 ∧
      resolveProductFuzzy products q = .resolved top) ∨
    (∃ top rest, keptMatches products q = top :: rest ∧ rest ≠ [] ∧
      top.score < 100 ∧
      resolveProductFuzzy products q =
        .errMultiple ((top :: rest).map fun m => (m.id, m.name))) ∨
    (∃ top, keptMatches products q = [top] ∧ top.score < 100 ∧
      resolveProductFuzzy products q = .resolved top) := by
  rcases hm : keptMatches products q with _ | ⟨top, rest⟩
  · exact Or.inl ⟨rfl, by simp [resolveProductFuzzy, hm]⟩
  · by_cases h100 : top.score = 100
    · refine Or.inr (Or.inl ⟨top, rest, rfl, h100, ?_⟩)
      simp [resolveProductFuzzy, hm, h100]
    · have hle : top.score ≤ 100 :=
        keptMatches_score_le (hm ▸ List.mem_cons_self top rest)
      have hlt : top.score < 100 := lt_of_le_of_ne hle h100
      rcases rest with _ | ⟨r2, rest'⟩
      · refine Or.inr (Or.inr (Or.inr ⟨top, rfl, hlt, ?_⟩))
        simp [resolveProductFuzzy, hm]
      · refine Or.inr (Or.inr (Or.inl ⟨top, r2 :: rest', rfl, by simp, hlt, ?_⟩))
        simp [resolveProductFuzzy, hm, hlt]

/-- **C3.**  Per-line isolation of the bulk processor: the response carries
exactly one result per retained line, in input order, each the image of that
line alone under `processLine` (so a failure at any step of one line is an
error result for that line and cannot affect any other line — two batches
agreeing at a position have the same result at that position); the summary
counts the `added` and `error` lines of the results. -/
theorem bulkStockAdd_per_line (env : BulkEnv) (ps : List Product)
    (items : List BulkItem) (hps : env.products = some ps)
    (hne : items ≠ []) :
    bulkStockAdd env (some ⟨.arr items⟩) =
      (jsonResp
        (.bulkCompleted (items.take 25).length
          (((items.take 25).map fun it => (processLine env ps it).1).filter
            (fun r => r.res.isAdded)).length
          (((items.take 25).map fun it => (processLine env ps it).1).filter
            (fun r => r.res.isError)).length
          ((items.take 25).map fun it => (processLine env ps it).1)) 200,
        (bulkLoop env ps (items.take 25)).2) ∧
    ((items.take 25).map fun it => (processLine env ps it).1).length =
      (items.take 25).length ∧
    (∀ items₂ : List BulkItem, ∀ i : Nat, i < 25 →
      items.get? i = items₂.get? i →
      ((items.take 25).map fun it => (processLine env ps it).1).get? i =
        ((items₂.take 25).map fun it => (processLine env ps it).1).get? i) := by
  refine ⟨bulkStockAdd_unfold env ps items hps (by simpa using hne),
    by simp, ?_⟩
  intro items₂ i hi hget
  rw [List.get?_map, List.get?_map, List.get?_take hi, List.get?_take hi, hget]

/-- **C3 witness**: a concrete two-line batch in which line 1 fails
resolution and line 2 succeeds yields one result per line in order and the
summary `{total 2, added 1, errors 1}`. -/
theorem bulkStockAdd_per_line_witness :
    bulkStockAdd
      ⟨some [⟨7, some "Milk"⟩], fun _ => some ⟨some 3, none, some "L", none,
        none, none, none, none, none, none⟩, fun _ _ _ _ => true⟩
      (some ⟨.arr [⟨some 1, some "xyz", some 2, none, none⟩,
        ⟨some 2, some "milk", some 1, none, none⟩]⟩) =
      (jsonResp
        (.bulkCompleted 2 1 1
          [⟨some 1, .errNotFound "xyz"⟩,
            ⟨some 2, .added 7 (some "Milk") ⟨1, "L", none⟩⟩]) 200,
        [.addStock 7 1 none (some 3)]) := by
  have h := (bulkStockAdd_per_line
    ⟨some [⟨7, some "Milk"⟩], fun _ => some ⟨some 3, none, some "L", none,
      none, none, none, none, none, none⟩, fun _ _ _ _ => true⟩ [⟨7, some "Milk"⟩]
    [⟨some 1, some "xyz", some 2, none, none⟩,
      ⟨some 2, some "milk", some 1, none, none⟩] rfl (by simp)).1
  exact h.trans (by decide)

/-- **C4.**  The bulk cap: for a batch of more than 25 items only the first
25 (in input order) are processed — the summary `total` is 25, there are
exactly 25 per-line results (none for the dropped items), and the whole
response is unchanged by replacing the items beyond position 25 by
anything. -/
theorem bulkStockAdd_cap (env : BulkEnv) (ps : List Product)
    (items : List BulkItem) (hps : env.products = some ps)
    (hgt : items.length > 25) :
    bulkStockAdd env (some ⟨.arr items⟩) =
      (jsonResp
        (.bulkCompleted 25
          (((items.take 25).map fun it => (processLine env ps it).1).filter
            (fun r => r.res.isAdded)).length
          (((items.take 25).map fun it => (processLine env ps it).1).filter
            (fun r => r.res.isError)).length
          ((items.take 25).map fun it => (processLine env ps it).1)) 200,
        (bulkLoop env ps (items.take 25)).2) ∧
    ((items.take 25).map fun it => (processLine env ps it).1).length = 25 ∧
    (∀ items₂ : List BulkItem, items₂.length > 25 →
      items₂.take 25 = items.take 25 →
      bulkStockAdd env (some ⟨.arr items₂⟩) =
        bulkStockAdd env (some ⟨.arr items⟩)) := by
  have h25 : (items.take 25).length = 25 := by
    rw [List.length_take]
    omega
  refine ⟨?_, by simpa using h25, ?_⟩
  · have h := bulkStockAdd_unfold env ps items hps (by omega)
    rwa [h25] at h
  · intro items₂ hgt₂ htake
    rw [bulkStockAdd_unfold env ps items₂ hps (by omega),
      bulkStockAdd_unfold env ps items hps (by omega), htake]

/-- **C4 witness**: a concrete batch of 30 items yields summary total 25 and
25 per-line results. -/
theorem bulkStockAdd_cap_witness :
    bulkStockAdd ⟨some [], fun _ => none, fun _ _ _ _ => false⟩
      (some ⟨.arr (List.replicate 30 ⟨some 1, some "x", some 2, none, none⟩)⟩) =
      (jsonResp
        (.bulkCompleted 25 0 25
          (List.replicate 25 ⟨some 1, .errNotFound "x"⟩)) 200, []) := by
  have h := (bulkStockAdd_cap ⟨some [], fun _ => none, fun _ _ _ _ => false⟩ []
    (List.replicate 30 ⟨some 1, some "x", some 2, none, none⟩) rfl
    (by simp)).1
  exact h.trans (by decide)

/-- **C10.**  A parsed bulk body whose `items` field is missing, not an
array, or an empty array is rejected with a 400 `invalid_request` response,
with no per-line processing and no backend write. -/
theorem bulkStockAdd_rejects_bad_items (env : BulkEnv) (b : BulkBody)
    (h : b.items = .missing ∨ b.items = .notArray ∨ b.items = .arr []) :
    bulkStockAdd env (some b) = (jsonResp .invalidRequest 400, []) := by
  obtain ⟨items⟩ := b
  rcases h with h | h | h <;> simp only at h <;> subst h <;>
    simp [bulkStockAdd]

/-- **C10 witness**: a concrete body with an empty `items` array is rejected
with `invalid_request` and zero writes. -/
theorem bulkStockAdd_rejects_bad_items_witness :
    bulkStockAdd ⟨some [], fun _ => none, fun _ _ _ _ => false⟩
      (some ⟨.arr []⟩) = (jsonResp .invalidRequest 400, []) :=
  bulkStockAdd_rejects_bad_items _ _ (Or.inr (Or.inr rfl))

/-- **C9.**  Selection asymmetry: when every list id is numeric, supplying
the string form of an existing numeric id in the POST add body is rejected
with `invalid_shopping_list_id` (strict `===` comparison finds nothing and
the add handler issues no write), while supplying the same string as the
GET `list_id` query parameter selects a list (both sides stringified). -/
theorem listSelection_asymmetry (lists : List SList) (n : Int) (l : SList)
    (env : AddEnv) (b : AddBody) (p : String) (amount : Int)
    (hnum : ∀ l' ∈ lists, ∃ m : Int, l'.id = .num m)
    (hmem : l ∈ lists) (hid : l.id = .num n)
    (hlists : env.lists = some lists)
    (hb : b.product = some p) (hp : p ≠ "") (ha : b.amount = some amount)
    (hsid : b.shopping_list_id = some (.str (toString n))) :
    addToShoppingList env (some b) =
      (jsonResp .invalidShoppingListId 400, []) ∧
    (∃ l', selectListGet lists (some (toString n)) = .selected l' ∧
      jidStr l'.id = toString n) := by
  constructor
  · have hfind : (lists.find? fun l' => l'.id = JId.str (toString n)) = none := by
      rw [List.find?_eq_none]
      intro x hx
      obtain ⟨m, hm⟩ := hnum x hx
      simp [hm]
    have hsel : selectListAdd lists (some (.str (toString n))) = .invalidId := by
      simp [selectListAdd, jidTruthy, int_toString_ne_empty n, hfind]
    simp [addToShoppingList, hb, ha, hp, hlists, hsid, hsel]
  · have hex : ∃ x ∈ lists, jidStr x.id = toString n :=
      ⟨l, hmem, by simp [hid, jidStr]⟩
    have hfind : (lists.find? fun l' => jidStr l'.id = toString n).isSome := by
      rw [List.find?_isSome]
      simpa using hex
    obtain ⟨l', hl'⟩ := Option.isSome_iff_exists.mp hfind
    refine ⟨l', ?_, by simpa using List.find?_some hl'⟩
    simp [selectListGet, int_toString_ne_empty n, hl']

/-- **C9 witness**: with the single list `{id: 5}`, the add body
`shopping_list_id: "5"` is rejected while the GET parameter `"5"` selects
the list. -/
theorem listSelection_asymmetry_witness :
    addToShoppingList ⟨some [⟨.num 5, some "Groceries"⟩], some [], true⟩
      (some ⟨some "milk", some 1, none, some (.str "5")⟩) =
      (jsonResp .invalidShoppingListId 400, []) ∧
    (∃ l', selectListGet [⟨.num 5, some "Groceries"⟩] (some "5") =
        .selected l' ∧ jidStr l'.id = "5") := by
  have h := listSelection_asymmetry [⟨.num 5, some "Groceries"⟩] 5
    ⟨.num 5, some "Groceries"⟩ ⟨some [⟨.num 5, some "Groceries"⟩], some [], true⟩
    ⟨some "milk", some 1, none, some (.str "5")⟩ "milk" 1
    (by intro l' hl'; simp at hl'; exact ⟨5, by simp [hl']⟩)
    (by simp) rfl rfl rfl (by simp) rfl rfl
  exact h

/-- **C2 counterexample.**  A creation request can have an unresolvable
quantity-unit role (here `stock`: the unit set is empty so `"Nope"` cannot
resolve) and still be answered by an earlier gate — the duplicate-name check
— so the returned error is `product_exists` and does not name the role,
contradicting the claim's unconditional "returns an error naming the first
unresolved role".  (The zero-writes half of the claim does hold here.) -/
theorem createProduct_unit_gate_cex :
    (resolveUnit [] (effName (some "Nope") "Piece")).isNone = true ∧
    createProduct
      ⟨some [⟨1, some "Tea"⟩], some [⟨1, "Fridge"⟩], some [], none, "Fridge",
        "Piece", "Piece", "Piece", "Piece", none, .threw "", false, 0, ""⟩
      (some ⟨some "Tea", none, none, some "Nope", none, none, none, none,
        none⟩) =
      (jsonResp (.productExists "Tea") 400, []) ∧
    RespBody.productExists "Tea" ≠ RespBody.invalidQuantityUnit "stock" := by
  refine ⟨rfl, by decide, by decide⟩

/-- **C2 (amended).**  For every creation request that passes the earlier
gates (valid name, no duplicate normalized name, resolvable location, unit
set available) and in which at least one of the four quantity-unit roles
fails to resolve by exact normalized name, the handler issues zero write
calls and returns a 400 error naming the first unresolved role in the order
stock, purchase, consume, price. -/
theorem createProduct_unit_gate (env : CreateEnv) (b : CreateBody)
    (name : String) (ps : List Product) (locs us : List Entity) (loc : Entity)
    (hname : b.name = some name) (hne : name ≠ "")
    (hps : env.products = some ps)
    (hdupe : (ps.any fun p => normalizeOpt p.name = normalize name) = false)
    (hlocs : env.locations = some locs)
    (hloc : (locs.find? fun l => normalize l.name =
      normalize (effName b.default_location env.defaultLocationName)) =
      some loc)
    (hus : env.units = some us)
    (hunres :
      (resolveUnit us (effName b.qu_stock env.defaultStockUnit)).isNone ∨
      (resolveUnit us (effName b.qu_purchase env.defaultPurchaseUnit)).isNone ∨
      (resolveUnit us (effName b.qu_consume env.defaultConsumeUnit)).isNone ∨
      (resolveUnit us (effName b.qu_price env.defaultPriceUnit)).isNone) :
    createProduct env (some b) =
      (jsonResp
        (.invalidQuantityUnit
          (if (resolveUnit us (effName b.qu_stock env.defaultStockUnit)).isNone
            then "stock"
           else if (resolveUnit us
              (effName b.qu_purchase env.defaultPurchaseUnit)).isNone
            then "purchase"
           else if (resolveUnit us
              (effName b.qu_consume env.defaultConsumeUnit)).isNone
            then "consume"
           else "price")) 400, []) := by
  simp only [createProduct, hname, hps, hdupe, hlocs, hloc, hus]
  rw [if_neg hne]
  simp only [Bool.false_eq_true, if_false]
  rcases h1 : resolveUnit us (effName b.qu_stock env.defaultStockUnit) with _ | u1
  · simp [h1]
  · rcases h2 : resolveUnit us (effName b.qu_purchase env.defaultPurchaseUnit)
      with _ | u2
    · simp [h1, h2]
    · rcases h3 : resolveUnit us
        (effName b.qu_consume env.defaultConsumeUnit) with _ | u3
      · simp [h1, h2, h3]
      · rcases h4 : resolveUnit us
          (effName b.qu_price env.defaultPriceUnit) with _ | u4
        · simp [h1, h2, h3, h4]
        · rw [h1, h2, h3, h4] at hunres
          simp at hunres

/-- **C2 witness**: with an empty unit set every role is unresolvable, the
earlier gates pass, and the handler returns the `stock` role with zero
writes. -/
theorem createProduct_unit_gate_witness :
    createProduct
      ⟨some [], some [⟨1, "Fridge"⟩], some [], none, "Fridge", "Piece",
        "Piece", "Piece", "Piece", none, .threw "", false, 0, ""⟩
      (some ⟨some "Tea", none, none, none, none, none, none, none, none⟩) =
      (jsonResp (.invalidQuantityUnit "stock") 400, []) := by
  have h := createProduct_unit_gate
    ⟨some [], some [⟨1, "Fridge"⟩], some [], none, "Fridge", "Piece",
      "Piece", "Piece", "Piece", none, .threw "", false, 0, ""⟩
    ⟨some "Tea", none, none, none, none, none, none, none, none⟩
    "Tea" [] [⟨1, "Fridge"⟩] [] ⟨1, "Fridge"⟩
    rfl (by decide) rfl rfl rfl (by decide) rfl (Or.inl (by decide))
  exact h.trans (by decide)

theorem respOk_addToShoppingList (env : AddEnv) (b : Option AddBody) :
    RespOk (addToShoppingList env b).1 := by
  unfold RespOk addToShoppingList
  repeat' split
  all_goals refine ⟨fun h => ?_, fun h => ?_⟩
  all_goals try dsimp only [jsonResp, textResp] at h ⊢
  all_goals try split at h
  all_goals try split
  all_goals try dsimp only [jsonResp, textResp] at h ⊢
  any_goals first | rfl | omega | contradiction

theorem respOk_getShoppingList (env : ListViewEnv) (lid : Option String) :
    RespOk (getShoppingList env lid) := by
  unfold RespOk getShoppingList
  repeat' split
  all_goals refine ⟨fun h => ?_, fun h => ?_⟩
  all_goals try dsimp only [jsonResp, textResp] at h ⊢
  all_goals try split at h
  all_goals try split
  all_goals try dsimp only [jsonResp, textResp] at h ⊢
  any_goals first | rfl | omega | contradiction

set_option maxHeartbeats 2000000 in
theorem respOk_createProduct (env : CreateEnv) (b : Option CreateBody) :
    RespOk (createProduct env b).1 := by
  unfold RespOk createProduct createAfterUnits createFinal imageStep
  repeat' split
  all_goals refine ⟨fun h => ?_, fun h => ?_⟩
  all_goals try dsimp only [jsonResp, textResp] at h ⊢
  all_goals try split at h
  all_goals try split
  all_goals try dsimp only [jsonResp, textResp] at h ⊢
  any_goals first | rfl | omega | contradiction

theorem respOk_singleStockAdd (env : BulkEnv) (b : Option BulkItem) :
    RespOk (singleStockAdd env b).1 := by
  unfold RespOk singleStockAdd
  repeat' split
  all_goals refine ⟨fun h => ?_, fun h => ?_⟩
  all_goals try dsimp only [jsonResp, textResp] at h ⊢
  all_goals try split at h
  all_goals try split
  all_goals try dsimp only [jsonResp, textResp] at h ⊢
  any_goals first | rfl | omega | contradiction

theorem respOk_bulkStockAdd (env : BulkEnv) (b : Option BulkBody) :
    RespOk (bulkStockAdd env b).1 := by
  unfold RespOk bulkStockAdd
  repeat' split
  all_goals refine ⟨fun h => ?_, fun h => ?_⟩
  all_goals try dsimp only [jsonResp, textResp] at h ⊢
  all_goals try split at h
  all_goals try split
  all_goals try dsimp only [jsonResp, textResp] at h ⊢
  any_goals first | rfl | omega | contradiction

/-- **C6 counterexample.**  A backend-unavailability failure on an enriched
endpoint is NOT a structured JSON error object: when the shopping-list fetch
fails, the add endpoint answers with the plain-text body
`"Failed to fetch shopping lists"` (status 502) carrying no machine-readable
error code. -/
theorem enriched_error_shape_cex :
    (addToShoppingList ⟨none, none, true⟩
      (some ⟨some "milk", some 1, none, none⟩)).1 =
      textResp "Failed to fetch shopping lists" 502 ∧
    isTextBody (addToShoppingList ⟨none, none, true⟩
      (some ⟨some "milk", some 1, none, none⟩)).1.body = true ∧
    errorCode (addToShoppingList ⟨none, none, true⟩
      (some ⟨some "milk", some 1, none, none⟩)).1.body = none := by
  refine ⟨rfl, rfl, rfl⟩

/-- **C6 (amended).**  Across the modelled enriched endpoints, every 400
failure (input and resolution errors) is a single structured JSON error
object with a machine-readable code, while backend-unavailability failures
(non-success upstream status) are plain-text 502 responses, not structured
JSON. -/
theorem enriched_error_shape (aenv : AddEnv) (ab : Option AddBody)
    (lenv : ListViewEnv) (lid : Option String)
    (cenv : CreateEnv) (cb : Option CreateBody)
    (senv : BulkEnv) (sb : Option BulkItem)
    (benv : BulkEnv) (bb : Option BulkBody) :
    RespOk (addToShoppingList aenv ab).1 ∧
    RespOk (getShoppingList lenv lid) ∧
    RespOk (createProduct cenv cb).1 ∧
    RespOk (singleStockAdd senv sb).1 ∧
    RespOk (bulkStockAdd benv bb).1 :=
  ⟨respOk_addToShoppingList aenv ab, respOk_getShoppingList lenv lid,
    respOk_createProduct cenv cb, respOk_singleStockAdd senv sb,
    respOk_bulkStockAdd benv bb⟩

/-- **C6 witness**: at a concrete 400-failing input (invalid JSON body) the
add endpoint's body carries a machine-readable code. -/
theorem enriched_error_shape_witness :
    (errorCode (addToShoppingList ⟨none, none, true⟩ none).1.body).isSome =
      true := by
  have h := (enriched_error_shape ⟨none, none, true⟩ none
    ⟨none, none, none, none, fun _ => none⟩ none
    ⟨none, none, none, none, "", "", "", "", "", none, .threw "", false, 0, ""⟩
    none ⟨none, fun _ => none, fun _ _ _ _ => false⟩ none
    ⟨none, fun _ => none, fun _ _ _ _ => false⟩ none).1.1
  exact h rfl

/-- **C7 counterexample.**  When a product's detail fetch fails, that row's
pricing fields are NOT set to `null`: the row is built from
`lastPurchaseMap[id] ?? {}`, so each pricing field is `undefined` (and is
omitted entirely by `JSON.stringify`), which differs from the `null` the
successful-fetch path stores via `?? null`.  (`last_store` is `null` as
claimed, and the response still succeeds.) -/
theorem listView_degrade_cex :
    getShoppingList
      ⟨some [⟨.num 1, some "List"⟩], some [⟨some (.num 7), some 2, none, none⟩],
        some [⟨7, some "Milk"⟩], some [], fun _ => none⟩ none =
      jsonResp
        (.listView (.num 1) (some "List")
          [⟨some (.num 7), "Milk", some 2, none, none,
            ⟨.undef, .undef, .undef, some 2, none, .undef, .undef⟩⟩]) 200 ∧
    (JVal.undef : JVal Int) ≠ JVal.null := by
  exact ⟨by decide, by decide⟩

/-- **C7 (amended).**  The enriched shopping-list view: under the selected
list, the response succeeds and its rows are exactly the first 50 base items
in base order, each mapped independently; a row whose last-purchase lookup
misses (its product's detail fetch failed, or its id is not a fetched
numeric id) has all its pricing fields `undefined` (omitted from the JSON
body, not `null`) and `last_store` `null`; a row whose lookup succeeds takes
exactly its own product's pricing context; a row whose product id is absent
from the product map gets `product_name` `"Unknown"`. -/
theorem listView_enrichment (env : ListViewEnv) (lists : List SList)
    (sl : SList) (items0 : List SLItem) (products : List Product)
    (stores : List Store) (lid : Option String)
    (hl : env.lists = some lists)
    (hsel : selectListGet lists lid = .selected sl)
    (hi : env.items = some items0) (hp : env.products = some products)
    (hs : env.stores = some stores) :
    getShoppingList env lid =
      jsonResp
        (.listView sl.id sl.name
          ((items0.take 50).map
            (mkEnrichedRow env.details products stores
              (numericIds (items0.take 50))))) 200 ∧
    (∀ i : SLItem,
      lpLookup env.details (numericIds (items0.take 50)) i.product_id =
        none →
      (mkEnrichedRow env.details products stores (numericIds (items0.take 50))
          i).pricing.last_price_per_price_unit = .undef ∧
      (mkEnrichedRow env.details products stores (numericIds (items0.take 50))
          i).pricing.price_unit = .undef ∧
      (mkEnrichedRow env.details products stores (numericIds (items0.take 50))
          i).pricing.price_qu_id = .undef ∧
      (mkEnrichedRow env.details products stores (numericIds (items0.take 50))
          i).pricing.purchase_to_stock_factor = .undef ∧
      (mkEnrichedRow env.details products stores (numericIds (items0.take 50))
          i).pricing.price_to_stock_factor = .undef ∧
      (mkEnrichedRow env.details products stores (numericIds (items0.take 50))
          i).last_store = none) ∧
    (∀ i : SLItem, ∀ e : LastPurchase,
      lpLookup env.details (numericIds (items0.take 50)) i.product_id =
        some e →
      (mkEnrichedRow env.details products stores (numericIds (items0.take 50))
          i).pricing.last_price_per_price_unit = e.last_price ∧
      (mkEnrichedRow env.details products stores (numericIds (items0.take 50))
          i).pricing.price_unit = e.price_qu_name ∧
      (mkEnrichedRow env.details products stores (numericIds (items0.take 50))
          i).pricing.price_qu_id = e.price_qu_id ∧
      (mkEnrichedRow env.details products stores (numericIds (items0.take 50))
          i).pricing.purchase_to_stock_factor = e.purchase_to_stock_factor ∧
      (mkEnrichedRow env.details products stores (numericIds (items0.take 50))
          i).pricing.price_to_stock_factor = e.price_to_stock_factor ∧
      (mkEnrichedRow env.details products stores (numericIds (items0.take 50))
          i).last_store = lastStoreFor stores e.store_id) ∧
    (∀ i : SLItem,
      (∀ pr ∈ products, some (toString pr.id) ≠ i.product_id.map jidStr) →
      (mkEnrichedRow env.details products stores (numericIds (items0.take 50))
          i).product_name = "Unknown") := by
  refine ⟨?_, fun i hnone => ?_, fun i e hsome => ?_, fun i habs => ?_⟩
  · simp only [getShoppingList, hl, hsel, hi, hp, hs]
  · simp [mkEnrichedRow, hnone, lpField, lastStoreFor]
  · simp [mkEnrichedRow, hsome, lpField]
  · simp only [mkEnrichedRow]
    cases hpid : i.product_id with
    | none => rfl
    | some j =>
      have hfind :
          (products.reverse.find? fun pr => toString pr.id = jidStr j) =
            none := by
        rw [List.find?_eq_none]
        intro x hx
        have hx' := habs x (List.mem_reverse.mp hx)
        rw [hpid] at hx'
        simpa using hx'
      simp [productNameFor, hpid, hfind]

/-- **C7 witness**: a concrete view with two rows — product 7's detail fetch
fails (row degraded to `undefined` pricing, `null` store, `"Unknown"` name),
product 8's succeeds (row carries its own pricing context) — succeeds with
both rows in base order. -/
theorem listView_enrichment_witness :
    getShoppingList
      ⟨some [⟨.num 1, some "L"⟩],
        some [⟨some (.num 7), some 2, none, none⟩,
          ⟨some (.num 8), some 1, none, some 4⟩],
        some [⟨8, some "Eggs"⟩], some [⟨3, some "Shop"⟩],
        fun n => if n = 8 then
          some ⟨none, none, none, some 12, some 3, none, some 9, some "Pack",
            none, none⟩
        else none⟩ none =
      jsonResp
        (.listView (.num 1) (some "L")
          [⟨some (.num 7), "Unknown", some 2, none, none,
            ⟨.undef, .undef, .undef, some 2, none, .undef, .undef⟩⟩,
           ⟨some (.num 8), "Eggs", some 1, none, some "Shop",
            ⟨.val 12, .val "Pack", .val 9, some 1, some 4, .null, .null⟩⟩])
        200 := by
  have h := (listView_enrichment
    ⟨some [⟨.num 1, some "L"⟩],
      some [⟨some (.num 7), some 2, none, none⟩,
        ⟨some (.num 8), some 1, none, some 4⟩],
      some [⟨8, some "Eggs"⟩], some [⟨3, some "Shop"⟩],
      fun n => if n = 8 then
        some ⟨none, none, none, some 12, some 3, none, some 9, some "Pack",
          none, none⟩
      else none⟩
    [⟨.num 1, some "L"⟩] ⟨.num 1, some "L"⟩
    [⟨some (.num 7), some 2, none, none⟩, ⟨some (.num 8), some 1, none, some 4⟩]
    [⟨8, some "Eggs"⟩] [⟨3, some "Shop"⟩] none
    rfl (by decide) rfl rfl rfl).1
  exact h.trans (by decide)

end Grocy
